import Mathlib

/-!
Verification development for the DatoImage Vue component
(src/src/components/DatoImage.ts).

The component is shallowly embedded: inline-style objects become ordered
association lists where a later entry shadows an earlier one (JS object
spread semantics), the render function becomes a pure function from the
environment, the props and the two reactive flags to a markup tree, and
the observer lifecycle becomes a small event state machine.
-/

/-- A value of an inline-style property: a string, a number, JS `null`,
or JS `undefined`. -/
inductive StyleVal where
  | str : String → StyleVal
  | num : ℚ → StyleVal
  | null : StyleVal
  | undef : StyleVal
deriving DecidableEq, Repr

/-- JS object-literal lookup: entries are listed in evaluation order and a
later entry with the same key overrides an earlier one (spread merge is
last-write-wins). -/
def styleGet : List (String × StyleVal) → String → Option StyleVal
  | [], _ => none
  | e :: rest, k =>
    match styleGet rest k with
    | some v => some v
    | none => if e.1 = k then some e.2 else none

/-- The `data` prop: the DatoCMS responsive-image payload (`ImageData`). -/
structure ImageData where
  aspectRatio : ℚ
  width : ℚ
  base64 : Option String
  height : Option ℚ
  sizes : Option String
  src : String
  srcSet : Option String
  webpSrcSet : Option String
  bgColor : Option String
  alt : String
  title : String
deriving DecidableEq, Repr

/-- The component's props besides `data` (each with its source default). -/
structure Props where
  data : ImageData
  pictureClass : Option String
  fadeInDuration : ℕ
  intersectionTreshold : ℚ
  intersectionMargin : String
  lazyLoad : Bool
  pictureStyle : List (String × StyleVal)
  rootStyle : List (String × StyleVal)
  explicitWidth : Bool
deriving DecidableEq, Repr

/-- The source defaults of the props (`fadeInDuration: 500`,
`intersectionTreshold: 0`, `lazyLoad: true`, empty style overrides,
`explicitWidth: false`). -/
def defaultProps (d : ImageData) : Props :=
  { data := d
    pictureClass := none
    fadeInDuration := 500
    intersectionTreshold := 0
    intersectionMargin := "0px 0px 0px 0px"
    lazyLoad := true
    pictureStyle := []
    rootStyle := []
    explicitWidth := false }

/-- Runtime capabilities: `typeof window !== "undefined"` and
`"IntersectionObserver" in window`. -/
structure Env where
  hasWindow : Bool
  hasIntersectionObserver : Bool
deriving DecidableEq, Repr

/-- `shouldAddImage` computed (source lines 85-99). -/
def shouldAddImage (env : Env) (p : Props) (inView loaded : Bool) : Bool :=
  if !p.lazyLoad then true
  else if !env.hasWindow then false
  else if env.hasIntersectionObserver then inView || loaded
  else true

/-- `shouldShowImage` computed (source lines 101-115). -/
def shouldShowImage (env : Env) (p : Props) (loaded : Bool) : Bool :=
  if !p.lazyLoad then true
  else if !env.hasWindow then false
  else if env.hasIntersectionObserver then loaded
  else true

/-- `height` computed: `props.data.height || props.data.width /
props.data.aspectRatio`; JS `||` falls through on a falsy (zero) height. -/
def heightVal (d : ImageData) : ℚ :=
  match d.height with
  | some h => if h ≠ 0 then h else d.width / d.aspectRatio
  | none => d.width / d.aspectRatio

/-- `transition` computed: a truthy (nonzero) `fadeInDuration` yields
`opacity <d>ms <d>ms`, otherwise `null`. -/
def transitionVal (d : ℕ) : Option String :=
  if d ≠ 0 then some ("opacity " ++ toString d ++ "ms " ++ toString d ++ "ms")
  else none

/-- Coerce an optional string to a style value (`null` when absent),
matching `transition: transition.value`. -/
def optStr : Option String → StyleVal
  | some s => StyleVal.str s
  | none => StyleVal.null

/-- The generated placeholder SVG markup (source lines 160-163). -/
def svgString (p : Props) : String :=
  "<svg xmlns=\"http://www.w3.org/2000/svg\" width=\"" ++ toString p.data.width
    ++ "\" height=\"" ++ toString (heightVal p.data) ++ "\"></svg>"

/-- Standard base64 alphabet used by `btoa`. -/
def base64Table : List Char :=
  "ABCDEFGHIJKLMNOPQRSTUVWXYZabcdefghijklmnopqrstuvwxyz0123456789+/".toList

/-- The base64 digit for a 6-bit value. -/
def b64Digit (n : ℕ) : Char := base64Table.getD n 'A'

/-- Base64-encode a byte list, the common behaviour of `window.btoa` and
the Buffer-based SSR fallback (`universalBtoa`, source lines 27-29). -/
def b64Chunks : List ℕ → String
  | [] => ""
  | [a] => String.mk [b64Digit (a / 4), b64Digit (a % 4 * 16)] ++ "=="
  | [a, b] =>
    String.mk [b64Digit (a / 4), b64Digit (a % 4 * 16 + b / 16),
               b64Digit (b % 16 * 4)] ++ "="
  | a :: b :: c :: rest =>
    String.mk [b64Digit (a / 4), b64Digit (a % 4 * 16 + b / 16),
               b64Digit (b % 16 * 4 + c / 64), b64Digit (c % 64)] ++ b64Chunks rest

/-- `universalBtoa` applied to a string's bytes. -/
def btoa (s : String) : String :=
  b64Chunks (s.toUTF8.toList.map (fun b => b.toNat))

/-- `absolutePositioning` (source lines 31-37). -/
def absolutePositioning : List (String × StyleVal) :=
  [("position", StyleVal.str "absolute"),
   ("left", StyleVal.str "0px"),
   ("top", StyleVal.str "0px"),
   ("width", StyleVal.str "100%"),
   ("height", StyleVal.str "100%")]

/-- The root `div` style (source lines 169-174): computed `display` and
`overflow`, then the `rootStyle` spread, then `position: "relative"`. -/
def rootDivStyle (p : Props) : List (String × StyleVal) :=
  [("display", StyleVal.str (if p.explicitWidth then "inline-block" else "block")),
   ("overflow", StyleVal.str "hidden")]
  ++ p.rootStyle
  ++ [("position", StyleVal.str "relative")]

/-- The placeholder `img` style (source lines 180-184): computed `display`
and `width`, then the `pictureStyle` spread. -/
def placeholderStyle (p : Props) : List (String × StyleVal) :=
  [("display", StyleVal.str "block"),
   ("width", StyleVal.str
      (if p.explicitWidth then toString p.data.width ++ "px" else "100%"))]
  ++ p.pictureStyle

/-- The background layer style (source lines 189-198). -/
def backgroundStyle (p : Props) (showing : Bool) : List (String × StyleVal) :=
  [("backgroundImage",
      match p.data.base64 with
      | some b => StyleVal.str ("url(" ++ b ++ ")")
      | none => StyleVal.null),
   ("backgroundColor",
      match p.data.bgColor with
      | some c => StyleVal.str c
      | none => StyleVal.undef),
   ("backgroundSize", StyleVal.str "cover"),
   ("opacity", StyleVal.num (if showing then 0 else 1)),
   ("transition", optStr (transitionVal p.fadeInDuration))]
  ++ absolutePositioning

/-- The real `img` style (source lines 221-226): `absolutePositioning`,
then the `pictureStyle` spread, then computed `opacity` and `transition`. -/
def realImgStyle (p : Props) (showing : Bool) : List (String × StyleVal) :=
  absolutePositioning
  ++ p.pictureStyle
  ++ [("opacity", StyleVal.num (if showing then 1 else 0)),
      ("transition", optStr (transitionVal p.fadeInDuration))]

/-- The no-script `img` style (source lines 250-253): the `pictureStyle`
spread, then `absolutePositioning`. -/
def noscriptImgStyle (p : Props) : List (String × StyleVal) :=
  p.pictureStyle ++ absolutePositioning

/-- A markup node: tag, attributes (an absent attribute carries `none`),
inline style, and children (a `none` child is a JS `null` in the
children array). -/
inductive VNode where
  | el (tag : String) (attrs : List (String × Option String))
       (style : List (String × StyleVal)) (children : List (Option VNode)) : VNode

/-- The children array of a node. -/
def VNode.children : VNode → List (Option VNode)
  | VNode.el _ _ _ cs => cs

/-- The placeholder `img` (source lines 178-187). -/
def placeholderImg (p : Props) : VNode :=
  VNode.el "img"
    [("class", p.pictureClass),
     ("src", some ("data:image/svg+xml;base64," ++ btoa (svgString p))),
     ("role", some "presentation")]
    (placeholderStyle p) []

/-- The background layer `div` (source lines 188-199). -/
def backgroundDiv (p : Props) (showing : Bool) : VNode :=
  VNode.el "div" [] (backgroundStyle p showing) []

/-- The real `img` (source lines 215-227); its `load` handler is modelled
by the `CbEvent.load` transition of the state machine below. -/
def realImg (p : Props) (showing : Bool) : VNode :=
  VNode.el "img"
    [("src", some p.data.src),
     ("alt", some p.data.alt),
     ("title", some p.data.title),
     ("class", p.pictureClass)]
    (realImgStyle p showing) []

/-- The optional `source` children of a `picture` element, identical in the
scripted block (lines 202-214) and the no-script block (lines 232-244). -/
def pictureSources (d : ImageData) : List (Option VNode) :=
  [match d.webpSrcSet with
   | some s =>
     some (VNode.el "source"
       [("srcset", some s), ("sizes", d.sizes), ("type", some "image/webp")] [] [])
   | none => none,
   match d.srcSet with
   | some s =>
     some (VNode.el "source" [("srcset", some s), ("sizes", d.sizes)] [] [])
   | none => none]

/-- The scripted `picture` element (source lines 201-228). -/
def realPicture (p : Props) (showing : Bool) : VNode :=
  VNode.el "picture" [] [] (pictureSources p.data ++ [some (realImg p showing)])

/-- The no-script `img` (source lines 245-255). -/
def noscriptImg (p : Props) : VNode :=
  VNode.el "img"
    [("src", some p.data.src),
     ("alt", some p.data.alt),
     ("title", some p.data.title),
     ("class", p.pictureClass),
     ("loading", some "lazy")]
    (noscriptImgStyle p) []

/-- The `picture` inside the no-script block (source lines 231-256). -/
def noscriptPicture (p : Props) : VNode :=
  VNode.el "picture" [] [] (pictureSources p.data ++ [some (noscriptImg p)])

/-- The `noscript` wrapper (source lines 230-257). -/
def noscriptBlock (p : Props) : VNode :=
  VNode.el "noscript" [] [] [some (noscriptPicture p)]

/-- The render function (source lines 165-259): root `div` with the
placeholder, the background layer, the conditionally present scripted
`picture`, and the no-script block. -/
def render (env : Env) (p : Props) (inView loaded : Bool) : VNode :=
  VNode.el "div" [] (rootDivStyle p)
    [some (placeholderImg p),
     some (backgroundDiv p (shouldShowImage env p loaded)),
     (if shouldAddImage env p inView loaded
      then some (realPicture p (shouldShowImage env p loaded))
      else none),
     some (noscriptBlock p)]

/-- The component's reactive state after `onMounted` in an environment with
IntersectionObserver support: whether `observer.value` is non-null, the
`inView` and `loaded` flags, and how many times `disconnect()` has been
invoked on the observer. -/
structure MState where
  observer : Bool
  inView : Bool
  loaded : Bool
  disconnects : ℕ
deriving DecidableEq, Repr

/-- State right after `onMounted` (source lines 117-136): the observer is
created (non-null), both flags start false, no disconnect has happened. -/
def initMState : MState :=
  { observer := true, inView := false, loaded := false, disconnects := 0 }

/-- A callback event: an IntersectionObserver callback carrying the first
entry's `isIntersecting` flag, or the `img` load event. -/
inductive CbEvent where
  | intersect (hit : Bool)
  | load
deriving DecidableEq, Repr

/-- One callback step: the observer callback (source lines 120-126) sets
`inView` and disconnects when the entry intersects and `observer.value` is
non-null — and never nulls the observer reference; `load` (source lines
144-148) sets `loaded`. -/
def stepCb (s : MState) : CbEvent → MState
  | CbEvent.intersect hit =>
    if hit && s.observer then
      { s with inView := true, disconnects := s.disconnects + 1 }
    else s
  | CbEvent.load => { s with loaded := true }

/-- `onBeforeUnmount` (source lines 138-142): disconnect when
`observer.value` is non-null. -/
def unmountStep (s : MState) : MState :=
  if s.observer then { s with disconnects := s.disconnects + 1 } else s

/-- Run a sequence of callback events. -/
def runCbs (s : MState) : List CbEvent → MState
  | [] => s
  | e :: rest => runCbs (stepCb s e) rest

/-- Whether an event is an observer callback. -/
def isIntersectEvent : CbEvent → Bool
  | CbEvent.intersect _ => true
  | CbEvent.load => false

/-- Whether an event is a qualifying visibility callback (the observed
entry intersects). -/
def isQualifying : CbEvent → Bool
  | CbEvent.intersect hit => hit
  | CbEvent.load => false

/-- Platform-admissible traces: the observer delivers callbacks only while
it has not been disconnected. -/
def validFrom (s : MState) : List CbEvent → Bool
  | [] => true
  | e :: rest =>
    (!(isIntersectEvent e) || s.disconnects == 0) && validFrom (stepCb s e) rest

/-- The worked example descriptor of the spec:
`width: 800, aspectRatio: 2, src: "a.jpg", alt: "x", title: "x"`. -/
def exData : ImageData :=
  { aspectRatio := 2
    width := 800
    base64 := none
    height := none
    sizes := none
    src := "a.jpg"
    srcSet := none
    webpSrcSet := none
    bgColor := none
    alt := "x"
    title := "x" }

/-- The example descriptor with an explicit height. -/
def exDataH : ImageData := { exData with height := some 300 }

/-- Props carrying caller style overrides that collide with computed
defaults. -/
def overrideProps : Props :=
  { defaultProps exData with
    rootStyle := [("position", StyleVal.str "static")]
    pictureStyle := [("opacity", StyleVal.str "0.5"), ("width", StyleVal.str "50px")] }

/-- A scripting client with IntersectionObserver support. -/
def envClient : Env := { hasWindow := true, hasIntersectionObserver := true }

/-- A server-side environment without a `window`. -/
def envNoDom : Env := { hasWindow := false, hasIntersectionObserver := false }

/-- A client without IntersectionObserver support. -/
def envNoObserver : Env := { hasWindow := true, hasIntersectionObserver := false }

/-- Lookup in a concatenation: the later segment wins when it defines the
key. -/
lemma styleGet_append (a b : List (String × StyleVal)) (k : String) :
    styleGet (a ++ b) k =
      match styleGet b k with
      | some v => some v
      | none => styleGet a k := by
  induction a with
  | nil => cases h : styleGet b k <;> simp [styleGet, h]
  | cons e rest ih =>
    show styleGet (e :: (rest ++ b)) k = _
    rw [styleGet]
    rw [ih]
    cases h : styleGet b k <;> cases h2 : styleGet rest k <;> simp [styleGet, h, h2]

/-- The later segment's binding survives the merge. -/
lemma styleGet_append_some {b : List (String × StyleVal)} {k : String}
    {v : StyleVal} (a : List (String × StyleVal)) (h : styleGet b k = some v) :
    styleGet (a ++ b) k = some v := by
  rw [styleGet_append, h]

/-- When the later segment does not define the key, the earlier one
decides. -/
lemma styleGet_append_none {b : List (String × StyleVal)} {k : String}
    (a : List (String × StyleVal)) (h : styleGet b k = none) :
    styleGet (a ++ b) k = styleGet a k := by
  rw [styleGet_append, h]

/-- Claim C2: `shouldAddImage`, which gates the presence of the scripted
`picture` child in the render tree, is true when `lazyLoad` is false,
otherwise false without a window, otherwise `inView || loaded` under
IntersectionObserver support, otherwise true. -/
theorem claimC2 (env : Env) (p : Props) (inV ld : Bool) :
    (p.lazyLoad = false → shouldAddImage env p inV ld = true) ∧
    (p.lazyLoad = true → env.hasWindow = false →
      shouldAddImage env p inV ld = false) ∧
    (p.lazyLoad = true → env.hasWindow = true →
      env.hasIntersectionObserver = true →
      shouldAddImage env p inV ld = (inV || ld)) ∧
    (p.lazyLoad = true → env.hasWindow = true →
      env.hasIntersectionObserver = false →
      shouldAddImage env p inV ld = true) ∧
    ((render env p inV ld).children.getD 2 none).isSome
      = shouldAddImage env p inV ld := by
  refine ⟨?_, ?_, ?_, ?_, ?_⟩
  · intro h; simp [shouldAddImage, h]
  · intro h1 h2; simp [shouldAddImage, h1, h2]
  · intro h1 h2 h3; simp [shouldAddImage, h1, h2, h3]
  · intro h1 h2 h3; simp [shouldAddImage, h1, h2, h3]
  · cases h : shouldAddImage env p inV ld <;>
      simp [render, VNode.children, h]

/-- Claim C2 witness: with lazy loading on a capable client and the element
in view, the real image is mounted. -/
theorem claimC2_witness :
    shouldAddImage envClient (defaultProps exData) true false = (true || false) :=
  (claimC2 envClient (defaultProps exData) true false).2.2.1 rfl rfl rfl

/-- Claim C3: `shouldShowImage` is true when `lazyLoad` is false, otherwise
false without a window, otherwise `loaded` under IntersectionObserver
support, otherwise true; the background layer's opacity is 1 exactly when it
is false and 0 when true, and the real image's opacity is the complement. -/
theorem claimC3 (env : Env) (p : Props) (ld : Bool) :
    (p.lazyLoad = false → shouldShowImage env p ld = true) ∧
    (p.lazyLoad = true → env.hasWindow = false →
      shouldShowImage env p ld = false) ∧
    (p.lazyLoad = true → env.hasWindow = true →
      env.hasIntersectionObserver = true →
      shouldShowImage env p ld = ld) ∧
    (p.lazyLoad = true → env.hasWindow = true →
      env.hasIntersectionObserver = false →
      shouldShowImage env p ld = true) ∧
    styleGet (backgroundStyle p (shouldShowImage env p ld)) "opacity"
      = some (StyleVal.num (if shouldShowImage env p ld then 0 else 1)) ∧
    styleGet (realImgStyle p (shouldShowImage env p ld)) "opacity"
      = some (StyleVal.num (if shouldShowImage env p ld then 1 else 0)) := by
  refine ⟨?_, ?_, ?_, ?_, ?_, ?_⟩
  · intro h; simp [shouldShowImage, h]
  · intro h1 h2; simp [shouldShowImage, h1, h2]
  · intro h1 h2 h3; simp [shouldShowImage, h1, h2, h3]
  · intro h1 h2 h3; simp [shouldShowImage, h1, h2, h3]
  · rw [backgroundStyle, styleGet_append_none _ (by rfl)]
    simp [styleGet]
  · rw [realImgStyle]
    refine styleGet_append_some _ ?_
    simp [styleGet]

/-- Claim C3 witness: on a capable client with the image loaded, the real
image is revealed. -/
theorem claimC3_witness :
    shouldShowImage envClient (defaultProps exData) true = true :=
  (claimC3 envClient (defaultProps exData) true).2.2.1 rfl rfl rfl

/-- Claim C5: when the descriptor's height is unset the placeholder height
is `width / aspectRatio`; when it is set to a positive value the placeholder
height is that value, regardless of the aspect ratio. -/
theorem claimC5 (d : ImageData) :
    (d.height = none → heightVal d = d.width / d.aspectRatio) ∧
    (∀ h : ℚ, d.height = some h → 0 < h → heightVal d = h) := by
  constructor
  · intro h; simp [heightVal, h]
  · intro v hv hpos
    simp [heightVal, hv, ne_of_gt hpos]

/-- Claim C5 witness: the example descriptor derives height 400, and with
an explicit height of 300 the placeholder height is 300. -/
theorem claimC5_witness :
    heightVal exData = exData.width / exData.aspectRatio ∧ heightVal exDataH = 300 :=
  ⟨(claimC5 exData).1 rfl, (claimC5 exDataH).2 300 rfl (by norm_num)⟩

/-- Claim C7: with `fadeInDuration = 0` the transition property of both the
background layer and the real image is null; otherwise it is the string
`opacity <fadeInDuration>ms <fadeInDuration>ms`. -/
theorem claimC7 (p : Props) (showing : Bool) :
    (p.fadeInDuration = 0 →
      styleGet (backgroundStyle p showing) "transition" = some StyleVal.null ∧
      styleGet (realImgStyle p showing) "transition" = some StyleVal.null) ∧
    (p.fadeInDuration ≠ 0 →
      styleGet (backgroundStyle p showing) "transition"
        = some (StyleVal.str ("opacity " ++ toString p.fadeInDuration ++ "ms "
            ++ toString p.fadeInDuration ++ "ms")) ∧
      styleGet (realImgStyle p showing) "transition"
        = some (StyleVal.str ("opacity " ++ toString p.fadeInDuration ++ "ms "
            ++ toString p.fadeInDuration ++ "ms"))) := by
  constructor
  · intro h
    constructor
    · rw [backgroundStyle, styleGet_append_none _ (by rfl)]
      simp [styleGet, transitionVal, optStr, h]
    · rw [realImgStyle]
      refine styleGet_append_some _ ?_
      simp [styleGet, transitionVal, optStr, h]
  · intro h
    constructor
    · rw [backgroundStyle, styleGet_append_none _ (by rfl)]
      simp [styleGet, transitionVal, optStr, h]
    · rw [realImgStyle]
      refine styleGet_append_some _ ?_
      simp [styleGet, transitionVal, optStr, h]

/-- Claim C7 witness: at duration 0 the background transition is null, and
at the default 500 it is `opacity 500ms 500ms`. -/
theorem claimC7_witness :
    styleGet (backgroundStyle { defaultProps exData with fadeInDuration := 0 } true)
      "transition" = some StyleVal.null ∧
    styleGet (backgroundStyle (defaultProps exData) true) "transition"
      = some (StyleVal.str ("opacity " ++ toString (500 : ℕ) ++ "ms "
          ++ toString (500 : ℕ) ++ "ms")) :=
  ⟨((claimC7 { defaultProps exData with fadeInDuration := 0 } true).1 rfl).1,
   ((claimC7 (defaultProps exData) true).2 (by decide)).1⟩

/-- Claim C8: when the caller overrides neither `display` on the root nor
`width` on the placeholder, `explicitWidth = true` yields a root display of
`inline-block` and a placeholder width of `<width>px`, and
`explicitWidth = false` yields `block` and `100%`. -/
theorem claimC8 (p : Props)
    (hr : styleGet p.rootStyle "display" = none)
    (hp : styleGet p.pictureStyle "width" = none) :
    styleGet (rootDivStyle p) "display"
      = some (StyleVal.str (if p.explicitWidth then "inline-block" else "block")) ∧
    styleGet (placeholderStyle p) "width"
      = some (StyleVal.str
          (if p.explicitWidth then toString p.data.width ++ "px" else "100%")) := by
  constructor
  · rw [rootDivStyle, styleGet_append_none _ (by rfl),
        styleGet_append_none _ hr]
    simp [styleGet]
  · rw [placeholderStyle, styleGet_append_none _ hp]
    simp [styleGet]

/-- Claim C8 witness: at the default props (no overrides, implicit width)
the root display is `block` and the placeholder width is `100%`. -/
theorem claimC8_witness :
    styleGet (rootDivStyle (defaultProps exData)) "display"
      = some (StyleVal.str
          (if (defaultProps exData).explicitWidth then "inline-block" else "block")) ∧
    styleGet (placeholderStyle (defaultProps exData)) "width"
      = some (StyleVal.str
          (if (defaultProps exData).explicitWidth
           then toString (defaultProps exData).data.width ++ "px" else "100%")) :=
  claimC8 (defaultProps exData) rfl rfl

/-- Claim C9: the worked example descriptor (width 800, aspect ratio 2, no
explicit height) yields placeholder height 400, and whenever `srcSet` and
`webpSrcSet` are both absent, the scripted picture (when mounted) and the
no-script picture contain only the fallback `img` child. -/
theorem claimC9 (p : Props) (showing : Bool)
    (h1 : p.data.srcSet = none) (h2 : p.data.webpSrcSet = none) :
    heightVal exData = 400 ∧
    (realPicture p showing).children.filterMap id = [realImg p showing] ∧
    (noscriptPicture p).children.filterMap id = [noscriptImg p] := by
  refine ⟨by norm_num [heightVal, exData], ?_, ?_⟩
  · simp [realPicture, VNode.children, pictureSources, h1, h2]
  · simp [noscriptPicture, VNode.children, pictureSources, h1, h2]

/-- Claim C9 witness: instantiated at the example descriptor with the
default configuration. -/
theorem claimC9_witness :
    heightVal exData = 400 ∧
    (realPicture (defaultProps exData) true).children.filterMap id
      = [realImg (defaultProps exData) true] ∧
    (noscriptPicture (defaultProps exData)).children.filterMap id
      = [noscriptImg (defaultProps exData)] :=
  claimC9 (defaultProps exData) true rfl rfl

/-- Claim C1 counterexample: caller overrides do not always win. A caller
`position: "static"` in `rootStyle` is overridden by the computed
`position: "relative"` on the root div, a caller `opacity` in
`pictureStyle` is overridden by the computed opacity on the real image, and
a caller `width` in `pictureStyle` is overridden by `absolutePositioning`
on the no-script image. -/
theorem claimC1_counterexample :
    overrideProps.rootStyle = [("position", StyleVal.str "static")] ∧
    styleGet (rootDivStyle overrideProps) "position"
      = some (StyleVal.str "relative") ∧
    styleGet overrideProps.pictureStyle "opacity"
      = some (StyleVal.str "0.5") ∧
    styleGet (realImgStyle overrideProps true) "opacity"
      = some (StyleVal.num 1) ∧
    styleGet overrideProps.pictureStyle "width"
      = some (StyleVal.str "50px") ∧
    styleGet (noscriptImgStyle overrideProps) "width"
      = some (StyleVal.str "100%") := by
  refine ⟨rfl, ?_, rfl, ?_, rfl, ?_⟩ <;> rfl

/-- Claim C1 (amended): caller style entries are last-write-wins on the
placeholder `img`; on the root div they win except for `position`, which is
always the computed `relative`; on the real `img` they win except for the
computed `opacity` and `transition`; on the no-script `img` the computed
absolute-positioning entries win over caller entries, which survive only
for keys outside `absolutePositioning`. -/
theorem claimC1_amended (p : Props) (k : String) (v : StyleVal) (showing : Bool) :
    (styleGet p.pictureStyle k = some v →
      styleGet (placeholderStyle p) k = some v) ∧
    (styleGet p.rootStyle k = some v → k ≠ "position" →
      styleGet (rootDivStyle p) k = some v) ∧
    styleGet (rootDivStyle p) "position" = some (StyleVal.str "relative") ∧
    (styleGet p.pictureStyle k = some v → k ≠ "opacity" → k ≠ "transition" →
      styleGet (realImgStyle p showing) k = some v) ∧
    (styleGet p.pictureStyle k = some v → styleGet absolutePositioning k = none →
      styleGet (noscriptImgStyle p) k = some v) := by
  refine ⟨?_, ?_, ?_, ?_, ?_⟩
  · intro h
    exact styleGet_append_some _ h
  · intro h hk
    rw [rootDivStyle, styleGet_append_none _ (by simp [styleGet, Ne.symm hk]),
        styleGet_append_some _ h]
  · exact styleGet_append_some _ rfl
  · intro h h1 h2
    rw [realImgStyle, styleGet_append_none _ (by simp [styleGet, Ne.symm h1, Ne.symm h2])]
    exact styleGet_append_some _ h
  · intro h habs
    rw [noscriptImgStyle, styleGet_append_none _ habs, h]

/-- Claim C1 (amended) witness: the caller's `opacity` override survives on
the placeholder image of the override example. -/
theorem claimC1_amended_witness :
    styleGet (placeholderStyle overrideProps) "opacity"
      = some (StyleVal.str "0.5") :=
  (claimC1_amended overrideProps "opacity" (StyleVal.str "0.5") true).1 rfl

/-- The observer reference, once set by `onMounted`, is never cleared by
any callback. -/
lemma observer_runCbs (t : List CbEvent) :
    ∀ s : MState, s.observer = true → (runCbs s t).observer = true := by
  induction t with
  | nil => intro s h; exact h
  | cons e rest ih =>
    intro s h
    refine ih (stepCb s e) ?_
    cases e with
    | intersect hit =>
      cases hit <;> simp [stepCb, h]
    | load => simp [stepCb, h]

/-- After the observer has been disconnected, an admissible trace delivers
no further observer callbacks, so the disconnect count and `inView` are
frozen. -/
lemma runCbs_post (t : List CbEvent) :
    ∀ s : MState, s.disconnects ≠ 0 → validFrom s t = true →
      (runCbs s t).disconnects = s.disconnects ∧ (runCbs s t).inView = s.inView := by
  induction t with
  | nil => intro s _ _; exact ⟨rfl, rfl⟩
  | cons e rest ih =>
    intro s hd hv
    cases e with
    | intersect hit =>
      exfalso
      apply hd
      simp [validFrom, isIntersectEvent] at hv
      exact hv.1
    | load =>
      have hv2 : validFrom (stepCb s CbEvent.load) rest = true := by
        simp [validFrom, isIntersectEvent] at hv
        exact hv
      have := ih (stepCb s CbEvent.load) (by simp [stepCb]; exact hd) hv2
      simpa [runCbs, stepCb] using this

/-- Before any disconnect, an admissible trace yields exactly one
disconnect and `inView = true` when it contains a qualifying callback, and
zero disconnects with `inView = false` otherwise. -/
lemma runCbs_pre (t : List CbEvent) :
    ∀ s : MState, s.observer = true → s.disconnects = 0 → s.inView = false →
      validFrom s t = true →
      ((t.any isQualifying = true →
          (runCbs s t).disconnects = 1 ∧ (runCbs s t).inView = true) ∧
       (t.any isQualifying = false →
          (runCbs s t).disconnects = 0 ∧ (runCbs s t).inView = false)) := by
  induction t with
  | nil =>
    intro s _ hd hi _
    constructor
    · intro h
      simp at h
    · intro _
      exact ⟨hd, hi⟩
  | cons e rest ih =>
    intro s hobs hd hi hv
    cases e with
    | load =>
      have hv2 : validFrom (stepCb s CbEvent.load) rest = true := by
        simp [validFrom, isIntersectEvent] at hv
        exact hv
      have := ih (stepCb s CbEvent.load) (by simp [stepCb]; exact hobs)
        (by simp [stepCb]; exact hd) (by simp [stepCb]; exact hi) hv2
      simpa [runCbs, List.any_cons, isQualifying] using this
    | intersect hit =>
      cases hit with
      | false =>
        have hstep : stepCb s (CbEvent.intersect false) = s := by
          simp [stepCb]
        have hv2 : validFrom (stepCb s (CbEvent.intersect false)) rest = true := by
          simp [validFrom] at hv
          exact hv.2
        have := ih (stepCb s (CbEvent.intersect false))
          (hstep ▸ hobs) (hstep ▸ hd) (hstep ▸ hi) hv2
        simpa [runCbs, List.any_cons, isQualifying] using this
      | true =>
        have hstep : stepCb s (CbEvent.intersect true)
            = { s with inView := true, disconnects := s.disconnects + 1 } := by
          simp [stepCb, hobs]
        have hv2 : validFrom (stepCb s (CbEvent.intersect true)) rest = true := by
          simp [validFrom] at hv
          exact hv.2
        have hpost := runCbs_post rest (stepCb s (CbEvent.intersect true))
          (by rw [hstep]; simp) hv2
        constructor
        · intro _
          refine ⟨?_, ?_⟩
          · show (runCbs (stepCb s (CbEvent.intersect true)) rest).disconnects = 1
            rw [hpost.1, hstep, hd]
          · show (runCbs (stepCb s (CbEvent.intersect true)) rest).inView = true
            rw [hpost.2, hstep]
        · intro h
          simp [List.any_cons, isQualifying] at h

/-- Claim C4: both flags start false at mount, and every transition —
observer callback, load callback, unmount — is monotonic on the `inView`
and `loaded` flags (never true to false). -/
theorem claimC4 (s : MState) (e : CbEvent) :
    initMState.inView = false ∧ initMState.loaded = false ∧
    (s.inView = true → (stepCb s e).inView = true) ∧
    (s.loaded = true → (stepCb s e).loaded = true) ∧
    (s.inView = true → (unmountStep s).inView = true) ∧
    (s.loaded = true → (unmountStep s).loaded = true) := by
  refine ⟨rfl, rfl, ?_, ?_, ?_, ?_⟩
  · intro h
    cases e with
    | intersect hit =>
      cases hit with
      | false => simp [stepCb, h]
      | true =>
        simp [stepCb, h]
        split <;> simp [h]
    | load => simp [stepCb, h]
  · intro h
    cases e with
    | intersect hit =>
      cases hit with
      | false => simp [stepCb, h]
      | true =>
        simp [stepCb, h]
        split <;> simp [h]
    | load => simp [stepCb]
  · intro h
    by_cases hc : s.observer = true <;> simp [unmountStep, hc, h]
  · intro h
    by_cases hc : s.observer = true <;> simp [unmountStep, hc, h]

/-- Claim C4 witness: from a state with both flags set, a load callback
keeps them set. -/
theorem claimC4_witness :
    (stepCb ⟨true, true, true, 1⟩ CbEvent.load).inView = true ∧
    (stepCb ⟨true, true, true, 1⟩ CbEvent.load).loaded = true :=
  ⟨(claimC4 ⟨true, true, true, 1⟩ CbEvent.load).2.2.1 rfl,
   (claimC4 ⟨true, true, true, 1⟩ CbEvent.load).2.2.2.1 rfl⟩

/-- Claim C6: over any admissible callback trace from mount, a trace with a
qualifying callback produces exactly one disconnect (at that first
qualifying callback, which also sets `inView`), and a trace with none
produces zero disconnects with unmount then disconnecting exactly once. -/
theorem claimC6 (t : List CbEvent) (hv : validFrom initMState t = true) :
    (t.any isQualifying = true →
      (runCbs initMState t).disconnects = 1 ∧
      (runCbs initMState t).inView = true) ∧
    (t.any isQualifying = false →
      (runCbs initMState t).disconnects = 0 ∧
      (unmountStep (runCbs initMState t)).disconnects = 1) := by
  have hpre := runCbs_pre t initMState rfl rfl rfl hv
  refine ⟨hpre.1, ?_⟩
  intro h
  have hz := hpre.2 h
  have hobs := observer_runCbs t initMState rfl
  refine ⟨hz.1, ?_⟩
  simp [unmountStep, hobs, hz.1]

/-- Claim C6 witness: the trace with a single qualifying callback
disconnects exactly once and sets `inView`. -/
theorem claimC6_witness :
    (runCbs initMState [CbEvent.intersect true]).disconnects = 1 ∧
    (runCbs initMState [CbEvent.intersect true]).inView = true :=
  (claimC6 [CbEvent.intersect true] (by decide)).1 (by decide)

/-- Claim C10: after a qualifying callback the observer reference is still
non-null, so unmount's guard passes and disconnect is invoked a second
time — the count goes from 1 to 2 across unmount. -/
theorem claimC10 (t : List CbEvent) (hv : validFrom initMState t = true)
    (hq : t.any isQualifying = true) :
    (runCbs initMState t).observer = true ∧
    (runCbs initMState t).disconnects = 1 ∧
    (unmountStep (runCbs initMState t)).disconnects = 2 := by
  have hobs := observer_runCbs t initMState rfl
  have hpre := (runCbs_pre t initMState rfl rfl rfl hv).1 hq
  exact ⟨hobs, hpre.1, by simp [unmountStep, hobs, hpre.1]⟩

/-- Claim C10 witness: qualifying callback then unmount gives two
disconnect invocations in total. -/
theorem claimC10_witness :
    (unmountStep (runCbs initMState [CbEvent.intersect true, CbEvent.load])).disconnects
      = 2 :=
  (claimC10 [CbEvent.intersect true, CbEvent.load] (by decide) (by decide)).2.2
